import Mathlib

/-!
Verification development for the triage-companion session/response engine
(`src/app.py`).  The Python source is shallowly embedded below:

* `Json` models the dynamically-typed values produced by `json.loads`
  (Python ints are `Json.int`; non-integer number literals are kept as raw
  lexemes in `Json.fnum`, since no claim depends on float arithmetic).
* `parse_gemini_response` embeds the function of the same name: the regex
  `<SCORING_DATA>\s*({.*?})\s*</SCORING_DATA>` (with `re.DOTALL`) is embedded
  as `scoreSearch`, `raw_text.split('<SCORING_DATA>')[0].strip()` as
  `pyStrip`/`beforeFirst`, and `json.loads` as `jsonParseObj`.
  Whitespace classes (`\s`, `str.strip`) are modelled by their ASCII part;
  no claim exercises non-ASCII whitespace.
* `start_new_triage_session` and `triage_turn` embed the two engine
  operations; the external Gemini client is an oracle (`AiOutcome`), the
  `uuid.uuid4()` supply is modelled as a fresh monotone counter, and
  `datetime.now()` is passed in as the `now` argument.
-/

/-- Python values decoded from JSON (`json.loads` output), as far as the
engine can observe them.  Non-integer numeric literals (floats, `NaN`,
`Infinity`) are kept as their raw lexeme in `fnum`. -/
inductive Json where
  | null
  | bool (b : Bool)
  | int (n : Int)
  | fnum (lexeme : String)
  | str (s : String)
  | arr (elems : List Json)
  | obj (fields : List (String × Json))

/-- ASCII whitespace stripped by Python `str.strip()` and matched by the
ASCII part of the regex class `\s`: space, tab, newline, carriage return,
vertical tab, form feed. -/
def pySpace (c : Char) : Bool :=
  c = ' ' || c = '\t' || c = '\n' || c = '\r' || c = '\x0b' || c = '\x0c'

/-- Python `str.strip()` on a character list. -/
def pyStripList (l : List Char) : List Char :=
  ((l.dropWhile pySpace).reverse.dropWhile pySpace).reverse

/-- Python `str.strip()`. -/
def pyStrip (s : String) : String :=
  String.mk (pyStripList s.data)

/-- Does `pat` occur as a contiguous substring of `s`? -/
def hasSub (pat : List Char) : List Char → Bool
  | [] => pat.isEmpty
  | c :: rest => pat.isPrefixOf (c :: rest) || hasSub pat rest

/-- Everything before the first occurrence of `pat` (the whole list when
`pat` does not occur): `s.split(pat)[0]` for a non-empty `pat`. -/
def beforeFirst (pat : List Char) : List Char → List Char
  | [] => []
  | c :: rest =>
    if pat.isPrefixOf (c :: rest) then [] else c :: beforeFirst pat rest

/-- The literal start marker `<SCORING_DATA>`. -/
def startMarker : List Char := "<SCORING_DATA>".data

/-- The literal end marker `</SCORING_DATA>`. -/
def endMarker : List Char := "</SCORING_DATA>".data

/-- Skip the regex class `\s*` (maximal munch; the following literal is
never a whitespace character, so the greedy match never backtracks). -/
def dropWs (l : List Char) : List Char := l.dropWhile pySpace

/-- The lazy part `.*?` of `({.*?})\s*</SCORING_DATA>`: consume the shortest
body such that the next character is `}` followed by `\s*</SCORING_DATA>`.
Returns the body (without the closing brace), or `none` when no closing
brace of the payload is followed by the end marker. -/
def lazyBody : List Char → Option (List Char)
  | [] => none
  | c :: rest =>
    if c = '\x7d' && endMarker.isPrefixOf (dropWs rest) then some []
    else (lazyBody rest).map (fun b => c :: b)

/-- Attempt the regex tail right after an occurrence of the start marker:
`\s*({.*?})\s*</SCORING_DATA>`.  Returns capture group 1 (`{...}`). -/
def matchAfter (l : List Char) : Option (List Char) :=
  match dropWs l with
  | '\x7b' :: rest => (lazyBody rest).map (fun body => '\x7b' :: (body ++ ['\x7d']))
  | _ => none

/-- `re.search(r'<SCORING_DATA>\s*({.*?})\s*</SCORING_DATA>', s, re.DOTALL)`:
scan left to right for an occurrence of the start marker whose tail
matches, and return capture group 1 of the leftmost match. -/
def scoreSearch : List Char → Option (List Char)
  | [] => none
  | c :: rest =>
    if startMarker.isPrefixOf (c :: rest) then
      match matchAfter ((c :: rest).drop startMarker.length) with
      | some g => some g
      | none => scoreSearch rest
    else scoreSearch rest

/-! Model of `json.loads`, restricted to what the code can feed it: the
regex capture group, which starts with `{` and ends with `}`.  The grammar
follows Python's `json` module: RFC 8259 plus the `NaN` / `Infinity` /
`-Infinity` constants, strict about control characters in strings, no
trailing commas, no leading zeros. -/

/-- JSON insignificant whitespace. -/
def skipJWs (l : List Char) : List Char :=
  l.dropWhile (fun c => c = ' ' || c = '\t' || c = '\n' || c = '\r')

/-- Value of a hexadecimal digit. -/
def hexVal (c : Char) : Option Nat :=
  if c.isDigit then some (c.toNat - 48)
  else if 'a' ≤ c ∧ c ≤ 'f' then some (c.toNat - 87)
  else if 'A' ≤ c ∧ c ≤ 'F' then some (c.toNat - 55)
  else none

/-- Parse the remainder of a JSON string literal (the opening quote is
already consumed).  Returns the decoded characters and the rest of the
input after the closing quote.  Surrogate escapes outside the BMP are
approximated by `Char.ofNat` (no claim exercises them). -/
def parseJStr : Nat → List Char → Option (List Char × List Char)
  | 0, _ => none
  | _, [] => none
  | fuel + 1, c :: rest =>
    if c = '"' then some ([], rest)
    else if c = '\\' then
      match rest with
      | [] => none
      | e :: rest2 =>
        if e = '"' then (parseJStr fuel rest2).map (fun p => ('"' :: p.1, p.2))
        else if e = '\\' then (parseJStr fuel rest2).map (fun p => ('\\' :: p.1, p.2))
        else if e = '/' then (parseJStr fuel rest2).map (fun p => ('/' :: p.1, p.2))
        else if e = 'b' then (parseJStr fuel rest2).map (fun p => (Char.ofNat 8 :: p.1, p.2))
        else if e = 'f' then (parseJStr fuel rest2).map (fun p => (Char.ofNat 12 :: p.1, p.2))
        else if e = 'n' then (parseJStr fuel rest2).map (fun p => ('\n' :: p.1, p.2))
        else if e = 'r' then (parseJStr fuel rest2).map (fun p => ('\r' :: p.1, p.2))
        else if e = 't' then (parseJStr fuel rest2).map (fun p => ('\t' :: p.1, p.2))
        else if e = 'u' then
          match rest2 with
          | h1 :: h2 :: h3 :: h4 :: rest3 =>
            match hexVal h1, hexVal h2, hexVal h3, hexVal h4 with
            | some a, some b, some c2, some d =>
              (parseJStr fuel rest3).map
                (fun p => (Char.ofNat (a * 4096 + b * 256 + c2 * 16 + d) :: p.1, p.2))
            | _, _, _, _ => none
          | _ => none
        else none
    else if c.toNat < 32 then none
    else (parseJStr fuel rest).map (fun p => (c :: p.1, p.2))

/-- Digits of a decimal literal as a number. -/
def natFromDigits (ds : List Char) : Nat :=
  ds.foldl (fun a c => a * 10 + (c.toNat - 48)) 0

/-- Assemble a parsed JSON number: an `Int` when there is no fraction and
no exponent, otherwise the raw float lexeme. -/
def mkNum (sgn ds frac expo : List Char) : Json :=
  if frac.isEmpty && expo.isEmpty then
    Json.int (if sgn.isEmpty then (natFromDigits ds : Int) else -(natFromDigits ds : Int))
  else Json.fnum (String.mk (sgn ++ ds ++ frac ++ expo))

/-- Parse a JSON number literal at the head of the input. -/
def parseNum (l : List Char) : Option (Json × List Char) :=
  let sgnAndRest : List Char × List Char :=
    match l with
    | '-' :: r => (['-'], r)
    | _ => ([], l)
  let sgn := sgnAndRest.1
  let l1 := sgnAndRest.2
  let ds := l1.takeWhile Char.isDigit
  let l2 := l1.dropWhile Char.isDigit
  if ds.isEmpty then none
  else if decide (1 < ds.length) && ds.headD '0' = '0' then none
  else
    let fracAndRest : List Char × List Char :=
      match l2 with
      | '.' :: r => ('.' :: r.takeWhile Char.isDigit, r.dropWhile Char.isDigit)
      | _ => ([], l2)
    let frac := fracAndRest.1
    let l3 := fracAndRest.2
    if frac = ['.'] then none
    else
      match l3 with
      | e :: r =>
        if e = 'e' || e = 'E' then
          let sgnE : List Char × List Char :=
            match r with
            | s :: r2 => if s = '+' || s = '-' then ([e, s], r2) else ([e], r)
            | [] => ([e], [])
          let eds := sgnE.2.takeWhile Char.isDigit
          let r3 := sgnE.2.dropWhile Char.isDigit
          if eds.isEmpty then none
          else some (mkNum sgn ds frac (sgnE.1 ++ eds), r3)
        else some (mkNum sgn ds frac [], l3)
      | [] => some (mkNum sgn ds frac [], l3)

/-- Does the input start with the given literal word? -/
def startLit (w : String) (l : List Char) : Bool :=
  w.data.isPrefixOf l

/-- Members of a JSON object after the opening `{` (first member expected);
`pv` parses one value at the given nesting level. -/
def parseObjAux (pv : List Char → Option (Json × List Char)) :
    Nat → List Char → List (String × Json) → Option (Json × List Char)
  | 0, _, _ => none
  | fuel + 1, l, acc =>
    match l with
    | '"' :: rest =>
      match parseJStr (rest.length + 1) rest with
      | none => none
      | some (key, r1) =>
        match skipJWs r1 with
        | ':' :: r2 =>
          match pv (skipJWs r2) with
          | none => none
          | some (v, r3) =>
            match skipJWs r3 with
            | ',' :: r4 => parseObjAux pv fuel (skipJWs r4) (acc ++ [(String.mk key, v)])
            | '\x7d' :: r4 => some (Json.obj (acc ++ [(String.mk key, v)]), r4)
            | _ => none
        | _ => none
    | _ => none

/-- Elements of a JSON array after the opening `[` (first element
expected); `pv` parses one value at the given nesting level. -/
def parseArrAux (pv : List Char → Option (Json × List Char)) :
    Nat → List Char → List Json → Option (Json × List Char)
  | 0, _, _ => none
  | fuel + 1, l, acc =>
    match pv l with
    | none => none
    | some (v, r1) =>
      match skipJWs r1 with
      | ',' :: r2 => parseArrAux pv fuel r2 (acc ++ [v])
      | ']' :: r2 => some (Json.arr (acc ++ [v]), r2)
      | _ => none

/-- One level of the JSON value grammar; nested values use the
recursion-depth fuel. -/
def parseStep (pv : List Char → Option (Json × List Char)) (l0 : List Char) :
    Option (Json × List Char) :=
  let l := skipJWs l0
  match l with
  | [] => none
  | c :: rest =>
    if c = '"' then
      (parseJStr (rest.length + 1) rest).map (fun p => (Json.str (String.mk p.1), p.2))
    else if c = '\x7b' then
      let l1 := skipJWs rest
      match l1 with
      | '\x7d' :: r => some (Json.obj [], r)
      | _ => parseObjAux pv (l1.length + 1) l1 []
    else if c = '[' then
      let l1 := skipJWs rest
      match l1 with
      | ']' :: r => some (Json.arr [], r)
      | _ => parseArrAux pv (l1.length + 1) l1 []
    else if startLit "null" l then some (Json.null, l.drop 4)
    else if startLit "true" l then some (Json.bool true, l.drop 4)
    else if startLit "false" l then some (Json.bool false, l.drop 5)
    else if startLit "NaN" l then some (Json.fnum "NaN", l.drop 3)
    else if startLit "Infinity" l then some (Json.fnum "Infinity", l.drop 8)
    else if startLit "-Infinity" l then some (Json.fnum "-Infinity", l.drop 9)
    else parseNum l

/-- A JSON value, with recursion-depth fuel. -/
def parseVal : Nat → List Char → Option (Json × List Char)
  | 0 => fun _ => none
  | fuel + 1 => parseStep (parseVal fuel)

/-- `json.loads` applied to the regex capture group: succeeds exactly when
the whole group is one valid JSON document, which (as the group starts
with `{` and ends with `}`) is necessarily an object; returns its fields
in source order (later duplicates listed later, as Python keeps the last
binding).  `none` models `json.JSONDecodeError`. -/
def jsonParseObj (s : String) : Option (List (String × Json)) :=
  match parseVal (s.length + 1) s.data with
  | some (Json.obj fields, rest) => if (skipJWs rest).isEmpty then some fields else none
  | _ => none

/-- The last binding of `k` in decoded object fields: Python's
`dict[k]` after `json.loads` (duplicate keys keep the last value). -/
def lastVal (fields : List (String × Json)) (k : String) : Option Json :=
  (fields.reverse.find? (fun p => p.1 == k)).map (fun p => p.2)

/-- Python `dict.get(k, default)` on decoded object fields. -/
def pyGet (fields : List (String × Json)) (k : String) (default : Json) : Json :=
  (lastVal fields k).getD default

/-- Embedding of `parse_gemini_response(raw_text, current_score)`
(src/app.py lines 118-143): the narrative is
`raw_text.split('<SCORING_DATA>')[0].strip()`; the score/status pair comes
from the regex match and `json.loads`, with Python's dynamic typing kept
(`current_score`, the returned score and the feedback are `Json` values). -/
def parse_gemini_response (raw_text : String) (current_score : Json) :
    String × Json × Json :=
  let patient_message := String.mk (pyStripList (beforeFirst startMarker raw_text.data))
  let scored : Json × Json :=
    match scoreSearch raw_text.data with
    | none => (current_score, Json.str "Awaiting key finding...")
    | some g =>
      match jsonParseObj (String.mk g) with
      | none => (current_score, Json.str "Error processing AI feedback (JSON format broken).")
      | some fields =>
        (pyGet fields "score_update" current_score,
         pyGet fields "hot_clue_status" (Json.str "Feedback received."))
  (patient_message, scored.1, scored.2)

/-! Case catalog (`PATIENT_CASES`), prompt builder (`BASE_PROMPT_TEMPLATE`)
and session engine (`start_new_triage_session`, `triage_turn`).
Apostrophes, curly quotes and dashes of the Python string literals are
written with character escapes. -/

/-- One entry of `PATIENT_CASES`. -/
structure CaseProfile where
  name : String
  age : Nat
  sex : String
  esi_level : Nat
  chief_complaint : String
  initial_line : String
  hot_clues : String
  scoring_rule : String

/-- The `case_pregnant_abdominal_pain` profile. -/
def caseAngie : CaseProfile :=
  { name := "Angie Smith"
    age := 26
    sex := "Female"
    esi_level := 2
    chief_complaint := "3-day history of lower abdominal pain during 18-week pregnancy; new nausea, vomiting, fever, and urinary symptoms."
    initial_line := "I’ve had lower belly pain for three days, and since last night I\x27ve been nauseous and vomiting. I feel feverish and weak. I\x27m 18 weeks pregnant."
    hot_clues := "\x27fever\x27, \x27dysuria or urinary frequency\x27, \x27incomplete bladder emptying\x27, \x27nausea/vomiting\x27, \x27CVA tenderness\x27, \x27pregnancy status\x27, \x27hydration status\x27."
    scoring_rule := "Award +40 points for asking about fever pattern, urinary symptoms, vomiting severity, or flank/CVA tenderness. Award +30 points for confirming pregnancy complications (vaginal bleeding, fetal movement, OB history). Deduct -20 points for ignoring red flags like high fever, tachycardia, dehydration, or flank pain." }

/-- The `case_leg_erythema_pain` profile. -/
def caseTyler : CaseProfile :=
  { name := "Tyler James"
    age := 62
    sex := "Male"
    esi_level := 2
    chief_complaint := "Progressively worsening pain and redness of the right lower leg for 2 days."
    initial_line := "My right leg started hurting two days ago and it\x27s gotten worse. A few hours ago I started to feel sick all over—aches, chills. The red area on my leg is getting bigger."
    hot_clues := "\x27fever\x27, \x27rapid progression of redness\x27, \x27erythema borders\x27, \x27lymphangitic streaking\x27, \x27leg swelling asymmetry\x27, \x27recent saphenous vein harvest\x27, \x27diabetes history\x27, \x27pain out of proportion\x27, \x27crepitus\x27, \x27bullae\x27."
    scoring_rule := "Award +40 points for asking about rate of progression, fever/chills, prior skin breaks, or history of saphenous vein harvest. Award +30 points for distinguishing cellulitis versus DVT (calf asymmetry, tenderness, risk factors). Deduct -20 points for failing to evaluate for necrotizing soft tissue infection (pain severity, crepitus). Deduct -15 points for ignoring cardiovascular or diabetes-related complications." }

/-- The `case_adolescent_back_pain` profile. -/
def caseAlex : CaseProfile :=
  { name := "Alex Paul"
    age := 12
    sex := "Male"
    esi_level := 3
    chief_complaint := "Occasional mild upper-back pain and stiffness for ~1 year."
    initial_line := "Sometimes my upper back hurts and feels stiff, especially in the morning, but mostly I\x27m fine."
    hot_clues := "\x27pain onset during growth\x27, \x27shoulder asymmetry\x27, \x27forward-bend rib hump\x27, \x27family history of scoliosis\x27, \x27neurologic symptoms (weakness, gait change)\x27, \x27night pain\x27, \x27rapid progression of curve\x27."
    scoring_rule := "Award +30 points for asking about physical exam signs (scoliosis screening, Adam’s forward-bend test), or family history, or neurologic symptoms. Award +20 points for ruling out red-flag symptoms (night pain, weight loss, bowel/bladder changes). Deduct –15 points for focusing only on pain severity and ignoring structural assessment." }

/-- `PATIENT_CASES`, in source (insertion) order. -/
def PATIENT_CASES : List (String × CaseProfile) :=
  [("case_pregnant_abdominal_pain", caseAngie),
   ("case_leg_erythema_pain", caseTyler),
   ("case_adolescent_back_pain", caseAlex)]

/-- `PATIENT_CASES.get(case_id)`. -/
def casesGet (case_id : String) : Option CaseProfile :=
  (PATIENT_CASES.find? (fun p => p.1 == case_id)).map (fun p => p.2)

/-- `BASE_PROMPT_TEMPLATE.format(...)`: the rendered system instruction. -/
def buildPrompt (c : CaseProfile) : String :=
  "\nYou are a high-fidelity patient simulation for a medical triage training system.\nYour name is "
    ++ c.name ++ " and your profile is an **ESI Level " ++ toString c.esi_level
    ++ "** case.\nYour chief complaint is: " ++ c.chief_complaint
    ++ ".\n\n**Triage Instructions:**\n1. **Be Conversational:** Respond naturally, reflecting your age, anxiety, and symptoms.\n2. **Be Truthful:** Only provide information the student asks for, based on your profile.\n3. **Do NOT** volunteer the diagnosis, ESI level, or scoring information.\n4. **Hot Clues (Student earns points):** "
    ++ c.hot_clues
    ++ ".\n5. **Cold Clues (Student loses points/wastes time):** Asking irrelevant questions or ordering unnecessary tests.\n\n**Scoring Rule for the AI:** "
    ++ c.scoring_rule
    ++ "\n\n**CRITICAL OUTPUT RULE:** After your full conversational text response, you MUST append a hidden JSON object enclosed in the <SCORING_DATA> tags.\nExample: [Patient\x27s conversational text] <SCORING_DATA> \x7b\"score_update\": 20, \"hot_clue_status\": \"Found key symptom: Sudden onset.\"\x7d </SCORING_DATA>\n\nBegin the simulation. Introduce yourself and state your initial complaint.\n"

/-- One `session_data` entry: the per-session mutable record.  The Gemini
chat object is modelled by an opaque handle number; `current_score` is a
dynamically-typed Python value (`Json`), initialized to the int `0`. -/
structure Session where
  chat : Nat
  case_id : String
  current_score : Json
  patient_name : String
  esi_goal : Nat
  arrival_time : String

/-- Process state: the module-level `session_data` dict (session ids are
modelled as the numbers issued by a fresh monotone counter standing for
`uuid.uuid4()`, whose contract is global uniqueness) and the supply of
fresh chat handles for `client.chats.create`. -/
structure EngineState where
  session_data : List (Nat × Session)
  uuid_counter : Nat
  chat_counter : Nat

/-- `session_data.get(k)`: first entry with key `k` (keys issued by the
fresh counter are unique). -/
def sdFind (l : List (Nat × Session)) (k : Nat) : Option Session :=
  match l with
  | [] => none
  | p :: rest => if p.1 == k then some p.2 else sdFind rest k

/-- `session_data[k] = v` for a `k` already present: replace in place. -/
def sdSet (l : List (Nat × Session)) (k : Nat) (v : Session) : List (Nat × Session) :=
  match l with
  | [] => []
  | p :: rest => if p.1 == k then (k, v) :: rest else p :: sdSet rest k v

/-- The tuple returned by `start_new_triage_session`. -/
structure StartOk where
  session_id : Nat
  initial_line : String
  case_data : CaseProfile
  arrival_time : String

/-- Embedding of `start_new_triage_session(case_id)` (src/app.py lines
147-179).  `now` stands for `datetime.now().strftime(...)`.  The state is
always returned: on the `ValueError` path it is unchanged.  The rendered
prompt is sent as the conversation's first turn and the reply is
discarded, so the AI oracle does not appear at all: the returned
`initial_line` is the profile's configured opening line. -/
def start_new_triage_session (case_id : String) (now : String) (st : EngineState) :
    Except String StartOk × EngineState :=
  match casesGet case_id with
  | none => (Except.error ("Case ID \x27" ++ case_id ++ "\x27 not found."), st)
  | some case_data =>
    let _full_prompt := buildPrompt case_data
    let chat := st.chat_counter
    let session_id := st.uuid_counter
    let arrival_time := now
    let sess : Session :=
      { chat := chat
        case_id := case_id
        current_score := Json.int 0
        patient_name := case_data.name
        esi_goal := case_data.esi_level
        arrival_time := arrival_time }
    (Except.ok
      { session_id := session_id
        initial_line := case_data.initial_line
        case_data := case_data
        arrival_time := arrival_time },
     { session_data := (session_id, sess) :: st.session_data
       uuid_counter := st.uuid_counter + 1
       chat_counter := st.chat_counter + 1 })

/-- Outcome of `chat.send_message(user_message)` followed by
`response.text`, as seen by `triage_turn`: the call raised, the response
had no text (`None`, which makes `parse_gemini_response` raise and be
caught by the same handler), or it produced raw text. -/
inductive AiOutcome where
  | raiseErr
  | noText
  | text (raw : String)

/-- The JSON body returned by a successful `/triage` turn. -/
structure TriageOk where
  patient_text : String
  current_score : Json
  real_time_feedback : Json

/-- Embedding of the `/triage` handler `triage_turn` (src/app.py lines
234-271): unknown session ids answer 404 without touching state; a raising
collaborator or a `None` reply answers 500 without touching state; on raw
text the reply is parsed and the parsed score is stored back into the
session. -/
def triage_turn (session_id : Nat) (user_message : String) (ai : AiOutcome)
    (st : EngineState) : Except String TriageOk × EngineState :=
  match sdFind st.session_data session_id with
  | none => (Except.error "Invalid or expired session ID", st)
  | some session =>
    match ai with
    | AiOutcome.raiseErr =>
      (Except.error "An internal error occurred during the conversation turn.", st)
    | AiOutcome.noText =>
      (Except.error "An internal error occurred during the conversation turn.", st)
    | AiOutcome.text raw_text =>
      let r := parse_gemini_response raw_text session.current_score
      let session' : Session := { session with current_score := r.2.1 }
      (Except.ok
        { patient_text := r.1
          current_score := r.2.1
          real_time_feedback := r.2.2 },
       { st with session_data := sdSet st.session_data session_id session' })

/-- Well-formedness of the store: every issued session id is below the
fresh counter (true of every reachable state; sessions are never
removed, so the stored keys are exactly the ids ever issued). -/
def WF (st : EngineState) : Prop :=
  ∀ p ∈ st.session_data, p.1 < st.uuid_counter

/-- Decidable check implying `WF`. -/
def WFb (st : EngineState) : Bool :=
  st.session_data.all (fun p => p.1 < st.uuid_counter)

theorem WF_of_WFb (st : EngineState) (h : WFb st = true) : WF st := by
  intro p hp
  exact of_decide_eq_true (List.all_eq_true.mp h p hp)

/-- The empty starting state of the process. -/
def st0 : EngineState :=
  { session_data := [], uuid_counter := 0, chat_counter := 0 }

/-! Helper lemmas about the substring scan, the strip, and the session
store. -/

theorem beforeFirst_isPre (pat s : List Char) : beforeFirst pat s <+: s := by
  induction s with
  | nil => simp [beforeFirst]
  | cons c rest ih =>
    by_cases h : pat.isPrefixOf (c :: rest) = true
    · simp [beforeFirst, h]
    · simp only [beforeFirst, if_neg h]
      exact List.cons_prefix_cons.mpr ⟨rfl, ih⟩

theorem hasSub_iff (pat s : List Char) : hasSub pat s = true ↔ pat <:+: s := by
  induction s with
  | nil => simp [hasSub, List.isEmpty_iff, List.infix_nil]
  | cons c rest ih =>
    simp [hasSub, ih, List.infix_cons_iff, List.isPrefixOf_iff_prefix]

theorem hasSub_beforeFirst (pat s : List Char) (hne : pat ≠ []) :
    hasSub pat (beforeFirst pat s) = false := by
  induction s with
  | nil => simpa [beforeFirst, hasSub, List.isEmpty_iff] using hne
  | cons c rest ih =>
    by_cases h : pat.isPrefixOf (c :: rest) = true
    · simpa [beforeFirst, h, hasSub, List.isEmpty_iff] using hne
    · have hnp : ¬ pat.isPrefixOf (c :: beforeFirst pat rest) = true := by
        intro hp
        exact h ( List.isPrefixOf_iff_prefix.mpr
          (( List.isPrefixOf_iff_prefix.mp hp).trans
            (List.cons_prefix_cons.mpr ⟨rfl, beforeFirst_isPre pat rest⟩)))
      simp only [beforeFirst, if_neg h, hasSub, Bool.or_eq_false_iff]
      exact ⟨Bool.eq_false_iff.mpr hnp, ih⟩

theorem pyStripList_isInf (l : List Char) : pyStripList l <:+: l := by
  have h1 : l.dropWhile pySpace <:+ l := List.dropWhile_suffix pySpace
  have h2 : (l.dropWhile pySpace).reverse.dropWhile pySpace <:+
      (l.dropWhile pySpace).reverse := List.dropWhile_suffix pySpace
  have h3 : ((l.dropWhile pySpace).reverse.dropWhile pySpace).reverse <+:
      l.dropWhile pySpace := by
    have h4 := List.reverse_prefix.mpr h2
    simpa using h4
  exact (h3.isInfix).trans h1.isInfix

theorem hasSub_false_mono (pat l₁ l₂ : List Char) (hinf : l₁ <:+: l₂)
    (h : hasSub pat l₂ = false) : hasSub pat l₁ = false := by
  cases hb : hasSub pat l₁ with
  | false => rfl
  | true =>
    have : hasSub pat l₂ = true :=
      (hasSub_iff pat l₂).mpr (((hasSub_iff pat l₁).mp hb).trans hinf)
    rw [this] at h
    exact absurd h (by simp)

theorem beforeFirst_eq_self (pat s : List Char) (h : hasSub pat s = false) :
    beforeFirst pat s = s := by
  induction s with
  | nil => rfl
  | cons c rest ih =>
    simp only [hasSub, Bool.or_eq_false_iff] at h
    simp only [beforeFirst, if_neg (Bool.eq_false_iff.mp h.1)]
    rw [ih h.2]

theorem scoreSearch_eq_none (s : List Char) (h : hasSub startMarker s = false) :
    scoreSearch s = none := by
  induction s with
  | nil => rfl
  | cons c rest ih =>
    simp only [hasSub, Bool.or_eq_false_iff] at h
    simp only [scoreSearch, if_neg (Bool.eq_false_iff.mp h.1)]
    exact ih h.2

theorem sdFind_mem {l : List (Nat × Session)} {k : Nat} {v : Session}
    (h : sdFind l k = some v) : (k, v) ∈ l := by
  induction l with
  | nil => simp [sdFind] at h
  | cons p rest ih =>
    by_cases hb : (p.1 == k) = true
    · simp only [sdFind, if_pos hb] at h
      have hk : p.1 = k := by simpa using hb
      have hv : p.2 = v := by injection h
      have hp : p = (k, v) := by rw [← hk, ← hv]
      rw [← hp]
      exact List.mem_cons_self p rest
    · simp only [sdFind, if_neg hb] at h
      exact List.mem_cons_of_mem p (ih h)

theorem sdFind_sdSet_self {l : List (Nat × Session)} {k : Nat} {v v' : Session}
    (h : sdFind l k = some v) : sdFind (sdSet l k v') k = some v' := by
  induction l with
  | nil => simp [sdFind] at h
  | cons p rest ih =>
    by_cases hb : (p.1 == k) = true
    · simp only [sdSet, if_pos hb, sdFind]
      rw [if_pos (by simp)]
    · simp only [sdFind, if_neg hb] at h
      simp only [sdSet, if_neg hb, sdFind, if_neg hb]
      exact ih h

theorem sdFind_sdSet_ne {l : List (Nat × Session)} {k k2 : Nat} {v' : Session}
    (hne : k ≠ k2) : sdFind (sdSet l k v') k2 = sdFind l k2 := by
  induction l with
  | nil => rfl
  | cons p rest ih =>
    by_cases hb : (p.1 == k) = true
    · have hk : p.1 = k := by simpa using hb
      simp [sdFind, sdSet, if_pos hb, beq_iff_eq, hk, hne]
    · simp only [sdSet, if_neg hb, sdFind, ih]

theorem sdFind_none_of_lt {l : List (Nat × Session)} {n : Nat}
    (h : ∀ p ∈ l, p.1 < n) : sdFind l n = none := by
  induction l with
  | nil => rfl
  | cons p rest ih =>
    have hp : p.1 < n := h p (List.mem_cons_self p rest)
    simp only [sdFind]
    rw [if_neg (by simpa using Nat.ne_of_lt hp)]
    exact ih (fun q hq => h q (List.mem_cons_of_mem p hq))

/-! Concrete runs used by witnesses and counterexamples. -/

/-- State after starting a session for the pregnancy case from the empty
process state: session id 0, stored score `int 0`. -/
def stStart : EngineState :=
  (start_new_triage_session "case_pregnant_abdominal_pain" "10:00:00 AM" st0).2

/-- A reply whose payload carries `score_update: 40`. -/
def rawPlus40 : String :=
  "Turn. <SCORING_DATA> \x7b\"score_update\": 40, \"hot_clue_status\": \"a\"\x7d </SCORING_DATA>"

/-- A reply whose payload carries `score_update: -20`. -/
def rawMinus20 : String :=
  "Turn. <SCORING_DATA> \x7b\"score_update\": -20, \"hot_clue_status\": \"b\"\x7d </SCORING_DATA>"

/-- A reply whose payload carries `score_update: 30`. -/
def rawPlus30 : String :=
  "Turn. <SCORING_DATA> \x7b\"score_update\": 30, \"hot_clue_status\": \"c\"\x7d </SCORING_DATA>"

/-- State after the first turn (delta +40). -/
def stT1 : EngineState := (triage_turn 0 "m1" (AiOutcome.text rawPlus40) stStart).2

/-- State after the second turn (delta -20). -/
def stT2 : EngineState := (triage_turn 0 "m2" (AiOutcome.text rawMinus20) stT1).2

/-- State after the third turn (delta +30). -/
def stT3 : EngineState := (triage_turn 0 "m3" (AiOutcome.text rawPlus30) stT2).2

/-- The session stored by `stStart`. -/
def sessAngie0 : Session :=
  { chat := 0
    case_id := "case_pregnant_abdominal_pain"
    current_score := Json.int 0
    patient_name := "Angie Smith"
    esi_goal := 2
    arrival_time := "10:00:00 AM" }

/-- The session stored by `stT1`. -/
def sessAngie40 : Session := { sessAngie0 with current_score := Json.int 40 }

/-- A reply whose payload carries a non-integer `score_update`. -/
def rawStrDelta : String :=
  "n <SCORING_DATA> \x7b\"score_update\": \"oops\"\x7d </SCORING_DATA>"

/-- A delimiter pair enclosing a brace-delimited block that is not valid
JSON. -/
def rawBraceJunk : String := "hi <SCORING_DATA> \x7boops\x7d </SCORING_DATA>"

/-- A delimiter pair enclosing a payload with no brace-delimited block
(also not valid JSON). -/
def rawBareJunk : String := "hi <SCORING_DATA> oops </SCORING_DATA>"

/-- A reply with an end marker but no start marker. -/
def rawLeak : String := "hello </SCORING_DATA> secret"

/-! Claim theorems. -/

/-- C1 (counterexample): starting from score 0 and applying replies whose
payloads carry the deltas +40, -20, +30 across three turns does NOT yield
a final stored score of 50: the code stores the last payload value, so the
final score is 30. -/
theorem C1_cex_sum_not_fifty :
    (sdFind stT3.session_data 0).map Session.current_score = some (Json.int 30) ∧
      Json.int 30 ≠ Json.int 50 := by
  refine ⟨rfl, fun h => ?_⟩
  injection h with h'
  exact absurd h' (by decide)

/-- C1 (amended): `AdvanceSession` does not add the payload's score field
to the previous score; it stores the payload's `score_update` value itself
as the new score whenever the field is present (the previous score is kept
only when the field is absent).  Hence the turn sequence +40, -20, +30
from 0 ends at 30, not at the batch sum 50. -/
theorem C1_amended_score_is_payload_value (st : EngineState) (sid : Nat)
    (msg raw : String) (s : Session) (g : List Char)
    (fields : List (String × Json)) (v : Json)
    (hs : sdFind st.session_data sid = some s)
    (hg : scoreSearch raw.data = some g)
    (hp : jsonParseObj (String.mk g) = some fields)
    (hv : lastVal fields "score_update" = some v) :
    (sdFind (triage_turn sid msg (AiOutcome.text raw) st).2.session_data sid).map
        Session.current_score = some v := by
  have hr : (parse_gemini_response raw s.current_score).2.1 = v := by
    simp [parse_gemini_response, hg, hp, pyGet, hv]
  simp only [triage_turn, hs]
  rw [sdFind_sdSet_self hs]
  simp [hr]

/-- C1 (witness): in the concrete one-session state, a reply whose payload
carries `score_update: 40` leaves the stored score at exactly `int 40`. -/
theorem C1_amended_witness :
    (sdFind (triage_turn 0 "m1" (AiOutcome.text rawPlus40) stStart).2.session_data 0).map
        Session.current_score = some (Json.int 40) :=
  C1_amended_score_is_payload_value stStart 0 "m1" rawPlus40 sessAngie0
    ("\x7b\"score_update\": 40, \"hot_clue_status\": \"a\"\x7d".data)
    [("score_update", Json.int 40), ("hot_clue_status", Json.str "a")]
    (Json.int 40) rfl rfl rfl rfl

/-- C2 (counterexample): a payload whose `score_update` field is present
but not an integer (a string) is NOT treated as absent: the parser returns
that string as the new score instead of leaving the score unchanged. -/
theorem C2_cex_nonint_applied :
    (parse_gemini_response rawStrDelta (Json.int 7)).2.1 = Json.str "oops" ∧
      Json.str "oops" ≠ Json.int 7 :=
  ⟨rfl, fun h => Json.noConfusion h⟩

/-- C2 (amended): when the payload decodes as a JSON object, the parser
returns `dict.get("score_update", current_score)` with no type check (the
field's value of any type when present, the unchanged score when absent)
as the new score, and `dict.get("hot_clue_status", "Feedback received.")`
as the feedback. -/
theorem C2_amended_get_semantics (raw : String) (cur : Json) (g : List Char)
    (fields : List (String × Json)) (hg : scoreSearch raw.data = some g)
    (hp : jsonParseObj (String.mk g) = some fields) :
    (parse_gemini_response raw cur).2.1 = pyGet fields "score_update" cur ∧
    (parse_gemini_response raw cur).2.2 =
      pyGet fields "hot_clue_status" (Json.str "Feedback received.") ∧
    (lastVal fields "score_update" = none → (parse_gemini_response raw cur).2.1 = cur) ∧
    (∀ v, lastVal fields "score_update" = some v →
      (parse_gemini_response raw cur).2.1 = v) := by
  have h1 : (parse_gemini_response raw cur).2.1 = pyGet fields "score_update" cur := by
    simp [parse_gemini_response, hg, hp]
  have h2 : (parse_gemini_response raw cur).2.2 =
      pyGet fields "hot_clue_status" (Json.str "Feedback received.") := by
    simp [parse_gemini_response, hg, hp]
  refine ⟨h1, h2, ?_, ?_⟩
  · intro hnone
    rw [h1]
    simp [pyGet, hnone]
  · intro v hv
    rw [h1]
    simp [pyGet, hv]

/-- C2 (witness): applied to the concrete reply whose payload is
`{"score_update": "oops"}` with current score `int 7`. -/
theorem C2_amended_witness :
    (parse_gemini_response rawStrDelta (Json.int 7)).2.1 =
      pyGet [("score_update", Json.str "oops")] "score_update" (Json.int 7) ∧
    (parse_gemini_response rawStrDelta (Json.int 7)).2.2 =
      pyGet [("score_update", Json.str "oops")] "hot_clue_status"
        (Json.str "Feedback received.") ∧
    (lastVal [("score_update", Json.str "oops")] "score_update" = none →
      (parse_gemini_response rawStrDelta (Json.int 7)).2.1 = Json.int 7) ∧
    (∀ v, lastVal [("score_update", Json.str "oops")] "score_update" = some v →
      (parse_gemini_response rawStrDelta (Json.int 7)).2.1 = v) :=
  C2_amended_get_semantics rawStrDelta (Json.int 7)
    ("\x7b\"score_update\": \"oops\"\x7d".data)
    [("score_update", Json.str "oops")] rfl rfl

/-- C3 (counterexample): a reply that contains a delimiter pair whose
enclosed payload (`oops`, no braces) is not valid JSON yields the
"Awaiting key finding..." sentinel, not a feedback string indicating a
parse error. -/
theorem C3_cex_awaiting_on_nonbrace :
    parse_gemini_response rawBareJunk (Json.int 5) =
      ("hi", Json.int 5, Json.str "Awaiting key finding...") ∧
      ("Awaiting key finding..." : String) ≠
        "Error processing AI feedback (JSON format broken)." :=
  ⟨rfl, by decide⟩

/-- C3 (amended): when the scanner locates a brace-delimited block between
the markers and the block is not valid JSON, the parser returns the
pre-marker narrative, the unchanged score, and the parse-error feedback
string, and never raises (it is a total function); when the scanner finds
no such block — even between a present delimiter pair — the feedback is
the "Awaiting key finding..." sentinel instead. -/
theorem C3_amended_parse_error_branch (raw : String) (cur : Json) :
    (∀ g, scoreSearch raw.data = some g → jsonParseObj (String.mk g) = none →
      parse_gemini_response raw cur =
        (pyStrip (String.mk (beforeFirst startMarker raw.data)), cur,
         Json.str "Error processing AI feedback (JSON format broken).")) ∧
    (scoreSearch raw.data = none →
      parse_gemini_response raw cur =
        (pyStrip (String.mk (beforeFirst startMarker raw.data)), cur,
         Json.str "Awaiting key finding...")) := by
  constructor
  · intro g hg hp
    simp [parse_gemini_response, hg, hp, pyStrip]
  · intro hnone
    simp [parse_gemini_response, hnone, pyStrip]

/-- C3 (witness): applied to the concrete reply whose delimiter pair
encloses the invalid brace block `{oops}`. -/
theorem C3_amended_witness :
    parse_gemini_response rawBraceJunk (Json.int 5) =
      (pyStrip (String.mk (beforeFirst startMarker rawBraceJunk.data)), Json.int 5,
       Json.str "Error processing AI feedback (JSON format broken).") :=
  (C3_amended_parse_error_branch rawBraceJunk (Json.int 5)).1 ("\x7boops\x7d".data) rfl rfl

/-- C4 (counterexample): the end marker DOES leak into the narrative when
it appears without a start marker: the narrative of
`"hello </SCORING_DATA> secret"` is the whole reply, end marker included. -/
theorem C4_cex_end_marker_leaks :
    (parse_gemini_response rawLeak (Json.int 0)).1 = "hello </SCORING_DATA> secret" ∧
      hasSub endMarker ("hello </SCORING_DATA> secret".data) = true :=
  ⟨rfl, rfl⟩

/-- C4 (amended): the narrative never contains the start marker (it is the
trimmed text before the start marker's first occurrence, so the start
marker and any payload after it never leak); an end marker that appears
before any start marker is NOT stripped and leaks into the narrative. -/
theorem C4_amended_no_start_marker_in_narrative (raw : String) (cur : Json) :
    hasSub startMarker ((parse_gemini_response raw cur).1).data = false := by
  have h1 : (parse_gemini_response raw cur).1 =
      String.mk (pyStripList (beforeFirst startMarker raw.data)) := rfl
  rw [h1]
  exact hasSub_false_mono startMarker _ _ (pyStripList_isInf _)
    (hasSub_beforeFirst startMarker raw.data (by decide))

/-- C5 (confirmed): a reply containing neither delimiter marker parses to
the full stripped text as narrative, the unchanged score, and the
"Awaiting key finding..." sentinel. -/
theorem C5_no_markers_full_text (raw : String) (cur : Json)
    (h1 : hasSub startMarker raw.data = false)
    (_h2 : hasSub endMarker raw.data = false) :
    parse_gemini_response raw cur =
      (pyStrip raw, cur, Json.str "Awaiting key finding...") := by
  have hb : beforeFirst startMarker raw.data = raw.data := beforeFirst_eq_self _ _ h1
  have hn : scoreSearch raw.data = none := scoreSearch_eq_none _ h1
  simp [parse_gemini_response, hn, hb, pyStrip]

/-- C5 (witness): applied to a concrete marker-free reply. -/
theorem C5_witness :
    parse_gemini_response "  hello there  " (Json.int 3) =
      (pyStrip "  hello there  ", Json.int 3, Json.str "Awaiting key finding...") :=
  C5_no_markers_full_text "  hello there  " (Json.int 3) rfl rfl

/-- C6 (confirmed): for every case identifier present in the catalog,
starting a session from a well-formed state succeeds with a session
identifier not currently stored (the store never evicts, so stored keys
are exactly the ids ever issued), an initial stored score of `int 0`, and
an opening line equal to the profile's configured `initial_line` (the
model sends the rendered prompt as the conversation's first turn and
discards the reply, which therefore does not appear in the result). -/
theorem C6_start_fresh_session (case_id now : String) (p : CaseProfile)
    (st : EngineState) (hc : casesGet case_id = some p) (hwf : WF st) :
    ∃ sid,
      (start_new_triage_session case_id now st).1 =
        Except.ok { session_id := sid, initial_line := p.initial_line,
                    case_data := p, arrival_time := now } ∧
      sdFind st.session_data sid = none ∧
      (sdFind (start_new_triage_session case_id now st).2.session_data sid).map
          Session.current_score = some (Json.int 0) := by
  refine ⟨st.uuid_counter, ?_, ?_, ?_⟩
  · simp [start_new_triage_session, hc]
  · exact sdFind_none_of_lt hwf
  · simp [start_new_triage_session, hc, sdFind]

/-- C6 (witness): starting the adolescent-back-pain case from the empty
state issues session id 0, score 0, and the profile's opening line. -/
theorem C6_witness :
    ∃ sid,
      (start_new_triage_session "case_adolescent_back_pain" "09:00:00 AM" st0).1 =
        Except.ok { session_id := sid, initial_line := caseAlex.initial_line,
                    case_data := caseAlex, arrival_time := "09:00:00 AM" } ∧
      sdFind st0.session_data sid = none ∧
      (sdFind (start_new_triage_session "case_adolescent_back_pain" "09:00:00 AM"
          st0).2.session_data sid).map Session.current_score = some (Json.int 0) :=
  C6_start_fresh_session "case_adolescent_back_pain" "09:00:00 AM" caseAlex st0 rfl
    (WF_of_WFb st0 rfl)

/-- C7 (confirmed): for every case identifier absent from the catalog,
`start_new_triage_session` fails with the `ValueError` message
`Case ID '...' not found.` and leaves the state — in particular the
session store — unchanged. -/
theorem C7_unknown_case_rejected (case_id now : String) (st : EngineState)
    (h : casesGet case_id = none) :
    start_new_triage_session case_id now st =
      (Except.error ("Case ID \x27" ++ case_id ++ "\x27 not found."), st) := by
  simp [start_new_triage_session, h]

/-- C7 (witness): applied to the concrete unknown identifier
`case_unknown` in the empty state. -/
theorem C7_witness :
    start_new_triage_session "case_unknown" "now" st0 =
      (Except.error ("Case ID \x27" ++ "case_unknown" ++ "\x27 not found."), st0) :=
  C7_unknown_case_rejected "case_unknown" "now" st0 rfl

/-- C8 (confirmed): for every session identifier not in the store (the
store never evicts, so exactly the identifiers never issued by
`start_new_triage_session`), `triage_turn` fails with the 404 message
`Invalid or expired session ID` and leaves the state unchanged, for every
user message and every collaborator outcome. -/
theorem C8_unknown_session_rejected (sid : Nat) (msg : String) (ai : AiOutcome)
    (st : EngineState) (h : sdFind st.session_data sid = none) :
    triage_turn sid msg ai st = (Except.error "Invalid or expired session ID", st) := by
  simp [triage_turn, h]

/-- C8 (witness): applied to session id 5 in the empty state. -/
theorem C8_witness :
    triage_turn 5 "m" AiOutcome.raiseErr st0 =
      (Except.error "Invalid or expired session ID", st0) :=
  C8_unknown_session_rejected 5 "m" AiOutcome.raiseErr st0 rfl

/-- C9 (confirmed): for every stored session, when the collaborator raises
or returns a reply without text, `triage_turn` fails with the 500 message
`An internal error occurred during the conversation turn.` and leaves the
state — in particular the session's stored score — unchanged. -/
theorem C9_turn_failure_no_mutation (sid : Nat) (msg : String) (st : EngineState)
    (s : Session) (h : sdFind st.session_data sid = some s) :
    triage_turn sid msg AiOutcome.raiseErr st =
      (Except.error "An internal error occurred during the conversation turn.", st) ∧
    triage_turn sid msg AiOutcome.noText st =
      (Except.error "An internal error occurred during the conversation turn.", st) := by
  constructor <;> simp [triage_turn, h]

/-- C9 (witness): applied to the concrete one-session state. -/
theorem C9_witness :
    triage_turn 0 "m" AiOutcome.raiseErr stStart =
      (Except.error "An internal error occurred during the conversation turn.", stStart) ∧
    triage_turn 0 "m" AiOutcome.noText stStart =
      (Except.error "An internal error occurred during the conversation turn.", stStart) :=
  C9_turn_failure_no_mutation 0 "m" stStart sessAngie0 rfl

/-- C10 (counterexample): the stored score is not modified by adding the
parsed turn's signed delta: after a turn storing 40 and a turn whose
payload carries -20, the stored score is -20, not 40 + (-20) = 20. -/
theorem C10_cex_delta_not_added :
    (sdFind stT2.session_data 0).map Session.current_score = some (Json.int (-20)) ∧
      Json.int (-20) ≠ Json.int (40 + (-20)) := by
  refine ⟨rfl, fun h => ?_⟩
  injection h with h'
  exact absurd h' (by decide)

/-- C10 (amended): after creation a session's conversation handle, case
identity and metadata never change under any operation; its score is
modified only by `triage_turn` on that very session with a textual reply,
which sets it to the parse result's score value (the payload's
`score_update` when present — replacing, not adding — and the old score
otherwise); `start_new_triage_session` touches no existing session. -/
theorem C10_amended_invariant :
    (∀ st sid msg ai sid2 s2, sdFind st.session_data sid2 = some s2 →
      ∃ s3, sdFind (triage_turn sid msg ai st).2.session_data sid2 = some s3 ∧
        s3.chat = s2.chat ∧ s3.case_id = s2.case_id ∧
        s3.patient_name = s2.patient_name ∧ s3.esi_goal = s2.esi_goal ∧
        s3.arrival_time = s2.arrival_time ∧
        s3.current_score = (if sid2 = sid then
            (match ai with
             | AiOutcome.text raw => (parse_gemini_response raw s2.current_score).2.1
             | _ => s2.current_score)
          else s2.current_score)) ∧
    (∀ case_id now st sid2 s2, WF st → sdFind st.session_data sid2 = some s2 →
      sdFind (start_new_triage_session case_id now st).2.session_data sid2 = some s2) := by
  constructor
  · intro st sid msg ai sid2 s2 h2
    by_cases hss : sid2 = sid
    · subst hss
      cases ai with
      | raiseErr =>
        exact ⟨s2, by simp [triage_turn, h2], rfl, rfl, rfl, rfl, rfl, by simp⟩
      | noText =>
        exact ⟨s2, by simp [triage_turn, h2], rfl, rfl, rfl, rfl, rfl, by simp⟩
      | text raw =>
        refine ⟨{ s2 with
          current_score := (parse_gemini_response raw s2.current_score).2.1 },
          ?_, rfl, rfl, rfl, rfl, rfl, by simp⟩
        simp only [triage_turn, h2]
        exact sdFind_sdSet_self h2
    · cases hlook : sdFind st.session_data sid with
      | none =>
        exact ⟨s2, by simp only [triage_turn, hlook]; exact h2,
          rfl, rfl, rfl, rfl, rfl, by simp [hss]⟩
      | some s =>
        cases ai with
        | raiseErr =>
          exact ⟨s2, by simp only [triage_turn, hlook]; exact h2,
            rfl, rfl, rfl, rfl, rfl, by simp [hss]⟩
        | noText =>
          exact ⟨s2, by simp only [triage_turn, hlook]; exact h2,
            rfl, rfl, rfl, rfl, rfl, by simp [hss]⟩
        | text raw =>
          refine ⟨s2, ?_, rfl, rfl, rfl, rfl, rfl, by simp [hss]⟩
          simp only [triage_turn, hlook]
          rw [sdFind_sdSet_ne (fun he => hss he.symm)]
          exact h2
  · intro case_id now st sid2 s2 hwf h2
    cases hc : casesGet case_id with
    | none => simpa [start_new_triage_session, hc] using h2
    | some p =>
      have hlt : sid2 < st.uuid_counter := hwf (sid2, s2) (sdFind_mem h2)
      simp only [start_new_triage_session, hc, sdFind]
      rw [if_neg (by simpa using (Nat.ne_of_lt hlt).symm)]
      exact h2

/-- C10 (witness): in the concrete two-turn run, the turn carrying -20
preserves the session's handle and case identity and stores the parse
result's score; starting another case leaves the session untouched. -/
theorem C10_witness :
    (∃ s3, sdFind (triage_turn 0 "m2" (AiOutcome.text rawMinus20)
          stT1).2.session_data 0 = some s3 ∧
      s3.chat = sessAngie40.chat ∧ s3.case_id = sessAngie40.case_id ∧
      s3.patient_name = sessAngie40.patient_name ∧
      s3.esi_goal = sessAngie40.esi_goal ∧
      s3.arrival_time = sessAngie40.arrival_time ∧
      s3.current_score =
        (parse_gemini_response rawMinus20 sessAngie40.current_score).2.1) ∧
    sdFind (start_new_triage_session "case_adolescent_back_pain" "11:00:00 AM"
        stT1).2.session_data 0 = some sessAngie40 :=
  ⟨C10_amended_invariant.1 stT1 0 "m2" (AiOutcome.text rawMinus20) 0 sessAngie40 rfl,
   C10_amended_invariant.2 "case_adolescent_back_pain" "11:00:00 AM" stT1 0 sessAngie40
     (WF_of_WFb stT1 rfl) rfl⟩
